import Mathlib

/-!
Verification of the weather-data acquisition pipeline of the
`weather-dashboard` repository: unit conversions and cache-key utilities
(`src/utils/weather.ts`), coordinate validation (`src/utils/validation.ts`),
the enhanced sliding-window rate limiter with exponential backoff
(the enhanced `validation.ts` variant), the in-memory TTL cache and the
forecast normalization / orchestration in `src/services/weatherService.ts`.

Machine numbers of the source (JavaScript floats used for temperatures,
wind speeds and coordinates) are modelled as rationals; timestamps
(`Date.now()` milliseconds) as naturals.  `Math.round` is
`⌊x + 1/2⌋` (JavaScript rounds half towards +∞).
-/

namespace WD

/-- JavaScript `Math.round`: round half towards positive infinity. -/
def jround (x : ℚ) : ℤ := ⌊x + 1/2⌋

/-- `convertWindSpeed` (src/utils/weather.ts): m/s to km/h, `Math.round(speedMs * 3.6)`. -/
def convertWindSpeed (speedMs : ℚ) : ℤ := jround (speedMs * (36/10))

/-- `convertVisibility` (src/utils/weather.ts): meters to km, `Math.round(visibilityM / 1000)`. -/
def convertVisibility (visibilityM : ℚ) : ℤ := jround (visibilityM / 1000)

/-- `generateCacheKey` (src/utils/weather.ts): `` `${prefix}_${params.join('_')}` ``,
with the parameters already carried as their JavaScript string forms. -/
def generateCacheKey (pre : String) (params : List String) : String :=
  pre ++ "_" ++ String.intercalate "_" params

/-- The cache key built by `searchCities` (src/services/weatherService.ts line 130):
`generateCacheKey('search', query)` on the raw, validated query. -/
def searchKey (query : String) : String := generateCacheKey "search" [query]

/-- A JavaScript number argument: either NaN or an actual (rational) value. -/
inductive JSNum : Type
  | nan : JSNum
  | num : ℚ → JSNum
deriving DecidableEq

/-- Result shape `{ isValid: boolean; error?: string }` of the validators. -/
structure ValidationResult : Type where
  isValid : Bool
  error : Option String
deriving DecidableEq

/-- `validateCoordinates` (src/utils/validation.ts lines 56–74).  The `typeof`
check cannot fire for typed numeric input; the `isNaN` check is the `nan` case. -/
def validateCoordinates (lat lon : JSNum) : ValidationResult :=
  match lat, lon with
  | JSNum.nan, _ => ⟨false, some "Coordinates must be valid numbers"⟩
  | _, JSNum.nan => ⟨false, some "Coordinates must be valid numbers"⟩
  | JSNum.num la, JSNum.num lo =>
    if la < -90 ∨ 90 < la then
      ⟨false, some "Latitude must be between -90 and 90 degrees"⟩
    else if lo < -180 ∨ 180 < lo then
      ⟨false, some "Longitude must be between -180 and 180 degrees"⟩
    else ⟨true, none⟩

/-! ### Association lists, modelling JavaScript `Map` (insertion order preserved) -/

/-- `Map.get` -/
def alGet {α : Type} : List (String × α) → String → Option α
  | [], _ => none
  | (k, v) :: rest, key => if k = key then some v else alGet rest key

/-- `Map.set`: overwrites in place, appends a fresh key at the end. -/
def alSet {α : Type} : List (String × α) → String → α → List (String × α)
  | [], key, v => [(key, v)]
  | (k, w) :: rest, key, v =>
    if k = key then (key, v) :: rest else (k, w) :: alSet rest key v

/-- `Map.delete` -/
def alDel {α : Type} : List (String × α) → String → List (String × α)
  | [], _ => []
  | (k, w) :: rest, key => if k = key then rest else (k, w) :: alDel rest key

/-! ### `EnhancedRateLimiter` (enhanced validation.ts, lines 292–409) -/

/-- Constructor parameters of `EnhancedRateLimiter`. -/
structure RLConfig : Type where
  maxRequests : ℕ
  windowMs : ℕ
  baseBackoffMs : ℕ

/-- A per-identifier violation record `{ count, lastViolation }`. -/
structure Violation : Type where
  count : ℕ
  lastViolation : ℕ
deriving DecidableEq

/-- The limiter's private state: `requests` and `violations` maps. -/
structure RLState : Type where
  requests : List (String × List ℕ)
  violations : List (String × Violation)
deriving DecidableEq

/-- The fresh limiter: both maps empty. -/
def emptyRL : RLState := ⟨[], []⟩

/-- Return shape of `checkRequest`. -/
structure RLResult : Type where
  allowed : Bool
  retryAfter : Option ℕ
  remaining : ℕ
deriving DecidableEq

/-- The part of `checkRequest` after the backoff-period guard: drop requests
outside the window, then either record a violation (window full) or record
the request and clear the violation entry. -/
def checkRequestWindow (cfg : RLConfig) (st : RLState) (id : String) (now : ℕ)
    (requests : List ℕ) : RLResult × RLState :=
  let validRequests := requests.filter (fun time => now - time < cfg.windowMs)
  let remaining := cfg.maxRequests - validRequests.length
  if cfg.maxRequests ≤ validRequests.length then
    let current := (alGet st.violations id).getD ⟨0, 0⟩
    (⟨false, some (cfg.baseBackoffMs * 2 ^ (min current.count 10)), 0⟩,
      { st with violations := alSet st.violations id ⟨current.count + 1, now⟩ })
  else
    (⟨true, none, remaining - 1⟩,
      { requests := alSet st.requests id (validRequests ++ [now]),
        violations := alDel st.violations id })

/-- `EnhancedRateLimiter.checkRequest` (lines 312–365), with `Date.now()`
passed explicitly as `now` and the mutated state returned. -/
def checkRequest (cfg : RLConfig) (st : RLState) (id : String) (now : ℕ) :
    RLResult × RLState :=
  let requests := (alGet st.requests id).getD []
  match alGet st.violations id with
  | some v =>
    let backoffEnd := v.lastViolation + cfg.baseBackoffMs * 2 ^ (min (v.count - 1) 10)
    if now < backoffEnd then (⟨false, some (backoffEnd - now), 0⟩, st)
    else checkRequestWindow cfg st id now requests
  | none => checkRequestWindow cfg st id now requests

/-- `EnhancedRateLimiter.isAllowed` (line 370): `checkRequest(identifier).allowed`. -/
def isAllowed (cfg : RLConfig) (st : RLState) (id : String) (now : ℕ) :
    Bool × RLState :=
  let r := checkRequest cfg st id now
  (r.1.allowed, r.2)

/-- `EnhancedRateLimiter.getRemainingRequests` (lines 377–379):
`checkRequest(identifier).remaining` — it delegates to the mutating call. -/
def getRemainingRequests (cfg : RLConfig) (st : RLState) (id : String) (now : ℕ) :
    ℕ × RLState :=
  let r := checkRequest cfg st id now
  (r.1.remaining, r.2)

/-- The guard of `checkRequest`'s early-deny branch: the identifier has a
violation record whose backoff period still covers `now`. -/
def inBackoff (cfg : RLConfig) (st : RLState) (id : String) (now : ℕ) : Bool :=
  match alGet st.violations id with
  | some v => now < v.lastViolation + cfg.baseBackoffMs * 2 ^ (min (v.count - 1) 10)
  | none => false

/-- The `validRequests` list `checkRequest` computes for an identifier. -/
def validReqs (cfg : RLConfig) (st : RLState) (id : String) (now : ℕ) : List ℕ :=
  ((alGet st.requests id).getD []).filter (fun time => now - time < cfg.windowMs)

/-- The identifier's sliding window is full at `now`. -/
def windowFull (cfg : RLConfig) (st : RLState) (id : String) (now : ℕ) : Bool :=
  cfg.maxRequests ≤ (validReqs cfg st id now).length

/-! ### Forecast normalization (src/services/weatherService.ts lines 213–252) -/

/-- One entry of a payload's `weather` array: `{ main, description, icon }`. -/
structure Condition : Type where
  main : String
  descr : String
  icon : String
deriving DecidableEq

/-- One three-hourly sample of the forecast payload (`forecastData.list[i]`),
restricted to the fields the normalizer reads.  An empty `weather` list models
a sample missing `weather[0]`. -/
structure ForecastItem : Type where
  dt_txt : String
  temp : ℚ
  humidity : ℚ
  windSpeed : ℚ
  pop : ℚ
  weather : List Condition
deriving DecidableEq

/-- `item.dt_txt.split(' ')[0]`: the calendar-date portion before the first space. -/
def dtDate (s : String) : String := s.takeWhile (fun c => c ≠ ' ')

/-- The accumulator stored per date in `dailyMap` (`DailyForecastData`). -/
structure DailyData : Type where
  temps : List ℚ
  conditions : List Condition
  humidity : List ℚ
  windSpeed : List ℚ
  precipitation : List ℚ
  icons : List String
deriving DecidableEq

/-- The fresh bucket `{ temps: [], conditions: [], ... }`. -/
def emptyDaily : DailyData := ⟨[], [], [], [], [], []⟩

/-- The six `push` statements of the `forEach` body for one sample, `c` being
`item.weather[0]`. -/
def pushItem (d : DailyData) (it : ForecastItem) (c : Condition) : DailyData :=
  { temps := d.temps ++ [it.temp]
    conditions := d.conditions ++ [c]
    humidity := d.humidity ++ [it.humidity]
    windSpeed := d.windSpeed ++ [it.windSpeed]
    precipitation := d.precipitation ++ [it.pop]
    icons := d.icons ++ [c.icon] }

/-- One `forEach` iteration on `dailyMap`: create the bucket on first sight of
the date (at the end, preserving insertion order), then push the sample. -/
def addToMap : List (String × DailyData) → String → ForecastItem → Condition →
    List (String × DailyData)
  | [], date, it, c => [(date, pushItem emptyDaily it c)]
  | (k, d) :: rest, date, it, c =>
    if k = date then (k, pushItem d it c) :: rest
    else (k, d) :: addToMap rest date it c

/-- The `forEach` over the remaining samples, starting from accumulator `m`.
A sample whose `weather` array is empty makes `item.weather[0].icon` throw a
`TypeError`, aborting the whole `try` block: modelled as `Except.error`. -/
def buildFrom (m : List (String × DailyData)) :
    List ForecastItem → Except Unit (List (String × DailyData))
  | [] => Except.ok m
  | it :: rest =>
    match it.weather with
    | [] => Except.error ()
    | c :: _ => buildFrom (addToMap m (dtDate it.dt_txt) it c) rest

/-- `dailyMap` after processing the whole `forecastData.list`. -/
def buildDailyMap (items : List ForecastItem) :
    Except Unit (List (String × DailyData)) :=
  buildFrom [] items

/-- `Math.max(...)` over a sample list (never called on an empty bucket). -/
def listMax : List ℚ → ℚ
  | [] => 0
  | x :: xs => xs.foldl max x

/-- `Math.min(...)` over a sample list (never called on an empty bucket). -/
def listMin : List ℚ → ℚ
  | [] => 0
  | x :: xs => xs.foldl min x

/-- Arithmetic mean used for humidity, wind speed and precipitation. -/
def listMean (l : List ℚ) : ℚ := l.sum / l.length

/-- The aggregated per-day forecast produced by the orchestrator
(the mapped object `{ date, day: { maxTemp, minTemp, ... } }`, flattened). -/
structure DailyForecast : Type where
  date : String
  maxTemp : ℤ
  minTemp : ℤ
  condition : String
  descr : String
  humidity : ℤ
  windSpeed : ℤ
  precipitation : ℤ
  icon : String
deriving DecidableEq

/-- The per-bucket aggregation of `dailyForecasts` (lines 240–252). -/
def mkDailyForecast (date : String) (d : DailyData) : DailyForecast :=
  { date := date
    maxTemp := jround (listMax d.temps)
    minTemp := jround (listMin d.temps)
    condition := ((d.conditions.head?).map Condition.main).getD ""
    descr := ((d.conditions.head?).map Condition.descr).getD ""
    humidity := jround (listMean d.humidity)
    windSpeed := jround (listMean d.windSpeed * (36/10))
    precipitation := jround (listMean d.precipitation * 100)
    icon := (d.icons.head?).getD "" }

/-- `dailyForecasts` (lines 238–252): bucket the samples, keep the first five
buckets in insertion order, aggregate each. -/
def dailyForecastsOf (items : List ForecastItem) :
    Except Unit (List DailyForecast) :=
  (buildDailyMap items).map
    (fun m => (m.take 5).map (fun kd => mkDailyForecast kd.1 kd.2))

/-- The distinct calendar dates of the samples, in first-seen order —
the reference description of the bucket keys. -/
def firstSeenDates (items : List ForecastItem) : List String :=
  items.foldl (fun acc it => if dtDate it.dt_txt ∈ acc then acc
                             else acc ++ [dtDate it.dt_txt]) []

/-- The temperatures of all samples falling on calendar date `d`, in input
order — the reference description of a bucket's `temps`. -/
def tempsOn (items : List ForecastItem) (d : String) : List ℚ :=
  (items.filter (fun it => dtDate it.dt_txt = d)).map ForecastItem.temp

/-! ### The TTL cache (src/services/weatherService.ts lines 45–73) -/

/-- `WEATHER_API.CACHE_DURATION` (src/constants/weather.ts): 10 minutes in ms. -/
def CACHE_DURATION : ℕ := 10 * 60 * 1000

/-- A `CacheEntry`: `{ data, timestamp }`. -/
structure CacheEntry (α : Type) : Type where
  data : α
  timestamp : ℕ
deriving DecidableEq

/-- The module-level `cache` map. -/
abbrev Cache (α : Type) : Type := List (String × CacheEntry α)

/-- `cacheUtils.get` (lines 51–57): the value is returned only while
`Date.now() - cached.timestamp < CACHE_DURATION`; the store itself is
returned unchanged — the source performs no eviction. -/
def cacheGet {α : Type} (c : Cache α) (key : String) (now : ℕ) :
    Option α × Cache α :=
  match alGet c key with
  | some e => (if now - e.timestamp < CACHE_DURATION then some e.data else none, c)
  | none => (none, c)

/-- `cacheUtils.set` (lines 59–64). -/
def cacheSet {α : Type} (c : Cache α) (key : String) (v : α) (now : ℕ) : Cache α :=
  alSet c key ⟨v, now⟩

/-- `cacheUtils.delete` (lines 66–68). -/
def cacheDelete {α : Type} (c : Cache α) (key : String) : Cache α :=
  alDel c key

/-! ### The orchestrator `WeatherService.getWeatherData` (lines 175–282) -/

/-- The current-conditions payload, restricted to the fields read by the
orchestrator.  `visibility := none` models an omitted field. -/
structure CurrentPayload : Type where
  name : String
  country : String
  lat : ℚ
  lon : ℚ
  temp : ℚ
  feels_like : ℚ
  humidity : ℤ
  pressure : ℤ
  windSpeed : ℚ
  visibility : Option ℚ
  weather : List Condition
deriving DecidableEq

/-- JavaScript `currentData.visibility || 10000`: `undefined` and the falsy
number `0` both coalesce to the 10000 m default. -/
def jsOrDefault (v : Option ℚ) (dflt : ℚ) : ℚ :=
  match v with
  | none => dflt
  | some x => if x = 0 then dflt else x

/-- The visibility stored in the snapshot (line 268):
`convertVisibility(currentData.visibility || 10000)`. -/
def normVisibility (v : Option ℚ) : ℤ := convertVisibility (jsOrDefault v 10000)

/-- The normalized `current` block of `WeatherData` (lines 261–272). -/
structure CurrentConditions : Type where
  temperature : ℤ
  feelsLike : ℤ
  condition : String
  descr : String
  humidity : ℤ
  windSpeed : ℤ
  visibility : ℤ
  pressure : ℤ
  uvIndex : ℤ
  icon : String
deriving DecidableEq

/-- The `WeatherData` snapshot assembled by `getWeatherData` (lines 254–275),
`lastUpdated` carried as the build time. -/
structure WeatherData : Type where
  locName : String
  locCountry : String
  locLat : ℚ
  locLon : ℚ
  current : CurrentConditions
  forecast : List DailyForecast
  lastUpdated : ℕ
deriving DecidableEq

/-- The errors `getWeatherData` can surface (after `getErrorMessage` mapping). -/
inductive WError : Type
  | validation : WError
  | rateLimited : WError
  | network : WError
  | malformed : WError
deriving DecidableEq

/-- The normalization step of `getWeatherData`: forecast aggregation plus the
field-by-field projection of the current conditions.  Reading `weather[0]` of
a payload whose `weather` array is empty throws, surfaced as `malformed`. -/
def normalize (cur : CurrentPayload) (fc : List ForecastItem) (now : ℕ) :
    Except WError WeatherData :=
  match dailyForecastsOf fc with
  | Except.error _ => Except.error WError.malformed
  | Except.ok dfs =>
    match cur.weather with
    | [] => Except.error WError.malformed
    | c :: _ =>
      Except.ok
        { locName := cur.name
          locCountry := cur.country
          locLat := cur.lat
          locLon := cur.lon
          current :=
            { temperature := jround cur.temp
              feelsLike := jround cur.feels_like
              condition := c.main
              descr := c.descr
              humidity := cur.humidity
              windSpeed := convertWindSpeed cur.windSpeed
              visibility := normVisibility cur.visibility
              pressure := cur.pressure
              uvIndex := 0
              icon := c.icon }
          forecast := dfs
          lastUpdated := now }

/-- The mutable module state the orchestrator touches: the cache and the
global `apiRateLimiter`. -/
structure Gateway : Type where
  cache : Cache WeatherData
  limiter : RLState
deriving DecidableEq

/-- The JavaScript string form of a coordinate, used only to build cache keys
(no theorem depends on the digits themselves, only on determinism). -/
def qStr (q : ℚ) : String := toString q

/-- The cache key of line 187: `generateCacheKey('weather', lat, lon)`. -/
def weatherKey (lat lon : ℚ) : String :=
  generateCacheKey "weather" [qStr lat, qStr lon]

/-- `WeatherService.getWeatherData` (lines 175–282): validate, rate-limit,
cache lookup, then fetch + normalize + cache-store.  The network responses
are passed in as `fetchOk` (both HTTP calls succeeded) with payloads
`cur`/`fc`; the returned `Bool` records whether the network was consulted. -/
def getWeatherData (cfg : RLConfig) (lat lon : ℚ) (fetchOk : Bool)
    (cur : CurrentPayload) (fc : List ForecastItem) (now : ℕ) (g : Gateway) :
    Except WError WeatherData × Gateway × Bool :=
  if (validateCoordinates (JSNum.num lat) (JSNum.num lon)).isValid = false then
    (Except.error WError.validation, g, false)
  else
    let a := isAllowed cfg g.limiter "weather" now
    if a.1 = false then (Except.error WError.rateLimited, { g with limiter := a.2 }, false)
    else
      let key := weatherKey lat lon
      match (cacheGet g.cache key now).1 with
      | some w => (Except.ok w, { g with limiter := a.2 }, false)
      | none =>
        if fetchOk = false then
          (Except.error WError.network, { g with limiter := a.2 }, true)
        else
          match normalize cur fc now with
          | Except.error e => (Except.error e, { g with limiter := a.2 }, true)
          | Except.ok w =>
            (Except.ok w,
              { cache := cacheSet g.cache key w now, limiter := a.2 }, true)

/-- `WeatherService.refreshWeatherData` (lines 329–333): delete the key,
then delegate to `getWeatherData`. -/
def refreshWeatherData (cfg : RLConfig) (lat lon : ℚ) (fetchOk : Bool)
    (cur : CurrentPayload) (fc : List ForecastItem) (now : ℕ) (g : Gateway) :
    Except WError WeatherData × Gateway × Bool :=
  getWeatherData cfg lat lon fetchOk cur fc now
    { g with cache := cacheDelete g.cache (weatherKey lat lon) }

/-- The `temps` stored in `dailyMap` under key `k` (empty when absent). -/
def lookupTemps (m : List (String × DailyData)) (k : String) : List ℚ :=
  ((alGet m k).map DailyData.temps).getD []

/-! ### Concrete instances used by witnesses and counterexamples -/

/-- A well-formed three-hourly sample on date `d` with temperature `t`. -/
def mkSample (d : String) (t : ℚ) : ForecastItem :=
  ⟨d ++ " 03:00:00", t, 50, 2, 0, [⟨"Clear", "clear sky", "01d"⟩]⟩

/-- A payload: the spec's eight samples for one day, then six further days. -/
def sampleItems : List ForecastItem :=
  ([10, 15, 12, 18, 20, 16, 14, 11] : List ℚ).map (mkSample "2024-01-01") ++
  [mkSample "2024-01-02" 5, mkSample "2024-01-03" 6, mkSample "2024-01-04" 7,
   mkSample "2024-01-05" 8, mkSample "2024-01-06" 9, mkSample "2024-01-07" 3]

/-- The daily forecast the orchestrator computes for `sampleItems`. -/
def sampleDfs : List DailyForecast :=
  match dailyForecastsOf sampleItems with
  | Except.ok l => l
  | Except.error _ => []

/-- A one-request-per-second limiter configuration. -/
def rlCfg1 : RLConfig := ⟨1, 1000, 1000⟩

/-- `rlCfg1` state after one allowed request at `t = 0`. -/
def rlS1 : RLState := (checkRequest rlCfg1 emptyRL "u" 0).2

/-- `rlCfg1` state after a further, denied request at `t = 0`
(a violation is recorded and its backoff runs until `t = 1000`). -/
def rlS2 : RLState := (checkRequest rlCfg1 rlS1 "u" 0).2

/-- A one-request-per-hour limiter (wide window), for repeated violations. -/
def rlCfgW : RLConfig := ⟨1, 3600000, 1000⟩

/-- `rlCfgW` state after one allowed request at `t = 0`. -/
def rlSW : RLState := (checkRequest rlCfgW emptyRL "u" 0).2

/-- A default snapshot used only as fallback of total extraction helpers. -/
def wDummy : WeatherData := ⟨"", "", 0, 0, ⟨0, 0, "", "", 0, 0, 0, 0, 0, ""⟩, [], 0⟩

/-- A well-formed current-conditions payload for London. -/
def curOk : CurrentPayload :=
  ⟨"London", "GB", (515 : ℚ)/10, -(12 : ℚ)/100, 10, 9, 80, 1012, 5, some 10000,
   [⟨"Clouds", "overcast clouds", "04d"⟩]⟩

/-- A fresh gateway: empty cache, fresh limiter. -/
def g0 : Gateway := ⟨[], emptyRL⟩

/-- The snapshot `getWeatherData` builds from `curOk` and an empty forecast. -/
def wEmpty : WeatherData := (normalize curOk [] 0).toOption.getD wDummy

/-- A forecast payload whose single sample is missing `weather[0]`. -/
def fcBad : List ForecastItem := [⟨"2024-01-01 00:00:00", 1, 1, 1, 0, []⟩]

/-- A cache holding one entry created at `t = 0`. -/
def cStale : Cache ℕ := [("k", ⟨42, 0⟩)]

/-- A previously cached snapshot, distinct from any freshly normalized one. -/
def wOld : WeatherData := { wDummy with locName := "Old" }

/-- A gateway whose cache holds an unexpired entry for `weatherKey 0 0`. -/
def gFresh : Gateway := ⟨[(weatherKey 0 0, ⟨wOld, 0⟩)], emptyRL⟩

/-- The snapshot freshly normalized from `curOk` and `sampleItems`. -/
def wNew : WeatherData := (normalize curOk sampleItems 0).toOption.getD wDummy

end WD

/-! ## Helper lemmas -/

namespace WD

theorem addToMap_keys (m : List (String × DailyData)) (date : String)
    (it : ForecastItem) (c : Condition) :
    (addToMap m date it c).map Prod.fst =
      if date ∈ m.map Prod.fst then m.map Prod.fst
      else m.map Prod.fst ++ [date] := by
  induction m with
  | nil => simp [addToMap]
  | cons kd rest ih =>
    obtain ⟨k, d⟩ := kd
    by_cases h : k = date
    · subst h
      simp [addToMap]
    · simp only [addToMap, if_neg h, List.map_cons, ih]
      have hne : ¬ date = k := fun hh => h hh.symm
      by_cases hmem : date ∈ rest.map Prod.fst
      · simp [hmem, hne]
      · simp [hmem, hne]

theorem addToMap_lookupTemps (m : List (String × DailyData)) (date : String)
    (it : ForecastItem) (c : Condition) (k : String) :
    lookupTemps (addToMap m date it c) k =
      if k = date then lookupTemps m k ++ [it.temp] else lookupTemps m k := by
  induction m with
  | nil =>
    by_cases h : k = date
    · subst h
      simp [addToMap, lookupTemps, alGet, pushItem, emptyDaily]
    · have hne : ¬ date = k := fun hh => h hh.symm
      simp [addToMap, lookupTemps, alGet, hne, h]
  | cons kd rest ih =>
    obtain ⟨k', d⟩ := kd
    by_cases h : k' = date
    · subst h
      by_cases hk : k' = k
      · subst hk
        simp [addToMap, lookupTemps, alGet, pushItem]
      · have hne : ¬ k = k' := fun hh => hk hh.symm
        simp [addToMap, lookupTemps, alGet, hk, hne]
    · simp only [addToMap, if_neg h]
      by_cases hk : k' = k
      · subst hk
        have hne : ¬ k' = date := h
        simp [lookupTemps, alGet, hne]
      · simp only [lookupTemps, alGet, if_neg hk] at ih ⊢
        exact ih

theorem buildFrom_ok_keys (items : List ForecastItem) :
    ∀ (m m' : List (String × DailyData)), buildFrom m items = Except.ok m' →
      m'.map Prod.fst =
        items.foldl (fun acc it => if dtDate it.dt_txt ∈ acc then acc
                                   else acc ++ [dtDate it.dt_txt]) (m.map Prod.fst) := by
  induction items with
  | nil =>
    intro m m' h
    simp only [buildFrom] at h
    cases h
    simp
  | cons it rest ih =>
    intro m m' h
    cases hw : it.weather with
    | nil => simp [buildFrom, hw] at h
    | cons c cs =>
      simp only [buildFrom, hw] at h
      rw [ih _ _ h, List.foldl_cons, addToMap_keys]

theorem tempsOn_cons (it : ForecastItem) (rest : List ForecastItem) (k : String) :
    tempsOn (it :: rest) k =
      (if dtDate it.dt_txt = k then [it.temp] else []) ++ tempsOn rest k := by
  by_cases h : dtDate it.dt_txt = k <;> simp [tempsOn, List.filter_cons, h]

theorem buildFrom_ok_temps (items : List ForecastItem) :
    ∀ (m m' : List (String × DailyData)), buildFrom m items = Except.ok m' →
      ∀ k, lookupTemps m' k = lookupTemps m k ++ tempsOn items k := by
  induction items with
  | nil =>
    intro m m' h k
    simp only [buildFrom] at h
    cases h
    simp [tempsOn]
  | cons it rest ih =>
    intro m m' h k
    cases hw : it.weather with
    | nil => simp [buildFrom, hw] at h
    | cons c cs =>
      simp only [buildFrom, hw] at h
      rw [ih _ _ h, tempsOn_cons, addToMap_lookupTemps]
      by_cases hk : k = dtDate it.dt_txt
      · subst hk
        simp
      · have hne : ¬ dtDate it.dt_txt = k := fun hh => hk hh.symm
        simp [hk, hne]

theorem foldKeys_nodup (items : List ForecastItem) :
    ∀ acc : List String, acc.Nodup →
      (items.foldl (fun acc it => if dtDate it.dt_txt ∈ acc then acc
                                  else acc ++ [dtDate it.dt_txt]) acc).Nodup := by
  induction items with
  | nil => intro acc h; simpa using h
  | cons it rest ih =>
    intro acc h
    rw [List.foldl_cons]
    by_cases hmem : dtDate it.dt_txt ∈ acc
    · simpa [hmem] using ih acc h
    · refine ih _ ?_
      simp only [if_neg hmem]
      simp [List.nodup_append, h, hmem]

theorem alGet_eq_of_mem {α : Type} (m : List (String × α)) (k : String) (v : α)
    (hm : (k, v) ∈ m) (hnd : (m.map Prod.fst).Nodup) : alGet m k = some v := by
  induction m with
  | nil => cases hm
  | cons kd rest ih =>
    obtain ⟨k', v'⟩ := kd
    rcases List.mem_cons.mp hm with heq | hmem
    · cases heq
      simp [alGet]
    · have hk : k' ≠ k := by
        intro hh
        subst hh
        simp [List.nodup_cons] at hnd
        exact hnd.1 v hmem
      simp only [alGet, if_neg hk]
      exact ih hmem (by simp [List.nodup_cons] at hnd; exact hnd.2)

theorem alGet_eq_none_of_not_mem {α : Type} (m : List (String × α)) (k : String)
    (h : k ∉ m.map Prod.fst) : alGet m k = none := by
  induction m with
  | nil => rfl
  | cons kd rest ih =>
    obtain ⟨k', v⟩ := kd
    simp only [List.map_cons, List.mem_cons] at h
    push_neg at h
    have hk : ¬ k' = k := fun hh => h.1 hh.symm
    simp only [alGet, if_neg hk]
    exact ih h.2

theorem alGet_alSet_self {α : Type} (m : List (String × α)) (k : String) (v : α) :
    alGet (alSet m k v) k = some v := by
  induction m with
  | nil => simp [alSet, alGet]
  | cons kd rest ih =>
    obtain ⟨k', w⟩ := kd
    by_cases h : k' = k
    · subst h
      simp [alSet, alGet]
    · simp [alSet, alGet, h, ih]

theorem alGet_alDel_self {α : Type} (m : List (String × α)) (k : String)
    (hnd : (m.map Prod.fst).Nodup) : alGet (alDel m k) k = none := by
  induction m with
  | nil => rfl
  | cons kd rest ih =>
    obtain ⟨k', w⟩ := kd
    simp only [List.map_cons, List.nodup_cons] at hnd
    by_cases h : k' = k
    · subst h
      simp only [alDel, if_pos rfl]
      exact alGet_eq_none_of_not_mem rest k' hnd.1
    · simp only [alDel, if_neg h, alGet, if_neg h]
      exact ih hnd.2

theorem checkRequest_of_not_backoff (cfg : RLConfig) (s : RLState) (id : String)
    (now : ℕ) (hb : inBackoff cfg s id now = false) :
    checkRequest cfg s id now =
      checkRequestWindow cfg s id now ((alGet s.requests id).getD []) := by
  unfold checkRequest
  cases h : alGet s.violations id with
  | none => simp
  | some v =>
    unfold inBackoff at hb
    rw [h] at hb
    simp only [decide_eq_false_iff_not] at hb
    simp [hb]

theorem checkRequest_of_backoff (cfg : RLConfig) (s : RLState) (id : String)
    (now : ℕ) (hb : inBackoff cfg s id now = true) :
    (checkRequest cfg s id now).1.allowed = false ∧
    (checkRequest cfg s id now).1.remaining = 0 ∧
    (checkRequest cfg s id now).2 = s := by
  unfold inBackoff at hb
  cases h : alGet s.violations id with
  | none => rw [h] at hb; simp at hb
  | some v =>
    rw [h] at hb
    simp only [decide_eq_true_eq] at hb
    unfold checkRequest
    simp [h, hb]

theorem checkRequestWindow_full (cfg : RLConfig) (st : RLState) (id : String)
    (now : ℕ) (requests : List ℕ)
    (hf : cfg.maxRequests ≤ (requests.filter (fun time => now - time < cfg.windowMs)).length) :
    checkRequestWindow cfg st id now requests =
      (⟨false,
        some (cfg.baseBackoffMs * 2 ^ (min ((alGet st.violations id).getD ⟨0, 0⟩).count 10)),
        0⟩,
       { st with violations := alSet st.violations id ⟨((alGet st.violations id).getD ⟨0, 0⟩).count + 1, now⟩ }) := by
  unfold checkRequestWindow
  simp [hf]

theorem checkRequestWindow_open (cfg : RLConfig) (st : RLState) (id : String)
    (now : ℕ) (requests : List ℕ)
    (hf : ¬ cfg.maxRequests ≤ (requests.filter (fun time => now - time < cfg.windowMs)).length) :
    checkRequestWindow cfg st id now requests =
      (⟨true, none,
        cfg.maxRequests - (requests.filter (fun time => now - time < cfg.windowMs)).length - 1⟩,
       { requests :=
          alSet st.requests id ((requests.filter (fun time => now - time < cfg.windowMs)) ++ [now]),
         violations := alDel st.violations id }) := by
  unfold checkRequestWindow
  simp [hf]

theorem getWeatherData_invalid (cfg : RLConfig) (lat lon : ℚ) (fOk : Bool)
    (cur : CurrentPayload) (fc : List ForecastItem) (now : ℕ) (g : Gateway)
    (h1 : (validateCoordinates (JSNum.num lat) (JSNum.num lon)).isValid = false) :
    getWeatherData cfg lat lon fOk cur fc now g = (Except.error WError.validation, g, false) := by
  simp only [getWeatherData, if_pos h1]

theorem getWeatherData_rateLimited (cfg : RLConfig) (lat lon : ℚ) (fOk : Bool)
    (cur : CurrentPayload) (fc : List ForecastItem) (now : ℕ) (g : Gateway)
    (h1 : ¬ (validateCoordinates (JSNum.num lat) (JSNum.num lon)).isValid = false)
    (h2 : (isAllowed cfg g.limiter "weather" now).1 = false) :
    getWeatherData cfg lat lon fOk cur fc now g =
      (Except.error WError.rateLimited,
       { g with limiter := (isAllowed cfg g.limiter "weather" now).2 }, false) := by
  simp only [getWeatherData, if_neg h1, if_pos h2]

theorem getWeatherData_cacheHit (cfg : RLConfig) (lat lon : ℚ) (fOk : Bool)
    (cur : CurrentPayload) (fc : List ForecastItem) (now : ℕ) (g : Gateway) (w : WeatherData)
    (h1 : ¬ (validateCoordinates (JSNum.num lat) (JSNum.num lon)).isValid = false)
    (h2 : ¬ (isAllowed cfg g.limiter "weather" now).1 = false)
    (h3 : (cacheGet g.cache (weatherKey lat lon) now).1 = some w) :
    getWeatherData cfg lat lon fOk cur fc now g =
      (Except.ok w, { g with limiter := (isAllowed cfg g.limiter "weather" now).2 }, false) := by
  simp only [getWeatherData, if_neg h1, if_neg h2]
  rw [h3]

theorem getWeatherData_fetchFail (cfg : RLConfig) (lat lon : ℚ)
    (cur : CurrentPayload) (fc : List ForecastItem) (now : ℕ) (g : Gateway)
    (h1 : ¬ (validateCoordinates (JSNum.num lat) (JSNum.num lon)).isValid = false)
    (h2 : ¬ (isAllowed cfg g.limiter "weather" now).1 = false)
    (h3 : (cacheGet g.cache (weatherKey lat lon) now).1 = none) :
    getWeatherData cfg lat lon false cur fc now g =
      (Except.error WError.network,
       { g with limiter := (isAllowed cfg g.limiter "weather" now).2 }, true) := by
  simp only [getWeatherData, if_neg h1, if_neg h2]
  rw [h3]
  exact rfl

theorem getWeatherData_normError (cfg : RLConfig) (lat lon : ℚ)
    (cur : CurrentPayload) (fc : List ForecastItem) (now : ℕ) (g : Gateway) (e : WError)
    (h1 : ¬ (validateCoordinates (JSNum.num lat) (JSNum.num lon)).isValid = false)
    (h2 : ¬ (isAllowed cfg g.limiter "weather" now).1 = false)
    (h3 : (cacheGet g.cache (weatherKey lat lon) now).1 = none)
    (h5 : normalize cur fc now = Except.error e) :
    getWeatherData cfg lat lon true cur fc now g =
      (Except.error e,
       { g with limiter := (isAllowed cfg g.limiter "weather" now).2 }, true) := by
  simp only [getWeatherData, if_neg h1, if_neg h2]
  rw [h3, h5]
  exact rfl

theorem getWeatherData_normOk (cfg : RLConfig) (lat lon : ℚ)
    (cur : CurrentPayload) (fc : List ForecastItem) (now : ℕ) (g : Gateway) (w : WeatherData)
    (h1 : ¬ (validateCoordinates (JSNum.num lat) (JSNum.num lon)).isValid = false)
    (h2 : ¬ (isAllowed cfg g.limiter "weather" now).1 = false)
    (h3 : (cacheGet g.cache (weatherKey lat lon) now).1 = none)
    (h5 : normalize cur fc now = Except.ok w) :
    getWeatherData cfg lat lon true cur fc now g =
      (Except.ok w,
       { cache := cacheSet g.cache (weatherKey lat lon) w now,
         limiter := (isAllowed cfg g.limiter "weather" now).2 }, true) := by
  simp only [getWeatherData, if_neg h1, if_neg h2]
  rw [h3, h5]
  exact rfl

theorem underscore_split_inj (a : List Char) :
    ∀ (a2 : List Char) (b b2 : List Char), '_' ∉ a → '_' ∉ a2 →
      a ++ '_' :: b = a2 ++ '_' :: b2 → a = a2 ∧ b = b2 := by
  induction a with
  | nil =>
    intro a2 b b2 ha ha2 h
    cases a2 with
    | nil => simpa using h
    | cons y ys =>
      simp only [List.nil_append, List.cons_append, List.cons.injEq] at h
      exact absurd (h.1 ▸ List.mem_cons_self y ys) ha2
  | cons x xs ih =>
    intro a2 b b2 ha ha2 h
    cases a2 with
    | nil =>
      simp only [List.cons_append, List.nil_append, List.cons.injEq] at h
      exact absurd (h.1 ▸ List.mem_cons_self x xs) ha
    | cons y ys =>
      simp only [List.cons_append, List.cons.injEq] at h
      have hx : '_' ∉ xs := fun hm => ha (List.mem_cons_of_mem _ hm)
      have hy : '_' ∉ ys := fun hm => ha2 (List.mem_cons_of_mem _ hm)
      obtain ⟨h1, h2⟩ := h
      obtain ⟨hA, hB⟩ := ih ys b b2 hx hy h2
      exact ⟨by rw [h1, hA], hB⟩

theorem gck_data (pre a b : String) :
    (generateCacheKey pre [a, b]).data = pre.data ++ '_' :: (a.data ++ '_' :: b.data) := by
  simp [generateCacheKey, String.intercalate, String.intercalate.go, String.data_append]

theorem buildFrom_error_of_mem (fc : List ForecastItem) :
    ∀ (m : List (String × DailyData)) (it : ForecastItem), it ∈ fc → it.weather = [] →
      buildFrom m fc = Except.error () := by
  induction fc with
  | nil => intro m it hit; cases hit
  | cons hd rest ih =>
    intro m it hit hw
    cases hhd : hd.weather with
    | nil => simp [buildFrom, hhd]
    | cons c cs =>
      rcases List.mem_cons.mp hit with heq | hmem
      · subst heq
        rw [hw] at hhd
        cases hhd
      · simp only [buildFrom, hhd]
        exact ih _ it hmem hw

end WD

/-! ## Claim theorems -/

namespace WD

/-- C1: for every forecast payload with a non-empty sample list, the daily
aggregation groups samples by the calendar-date portion of `dt_txt` in
first-seen order (the produced dates are the first five distinct dates), each
`DailyForecast` has `maxTemp` the rounded maximum and `minTemp` the rounded
minimum of that day's sample temperatures, and when the samples span seven or
more distinct calendar days exactly five entries are returned. -/
theorem c1_daily_aggregation (items : List ForecastItem) (dfs : List DailyForecast)
    (hne : items ≠ []) (hok : dailyForecastsOf items = Except.ok dfs) :
    dfs.map DailyForecast.date = (firstSeenDates items).take 5 ∧
    (∀ df ∈ dfs, df.maxTemp = jround (listMax (tempsOn items df.date)) ∧
                 df.minTemp = jround (listMin (tempsOn items df.date))) ∧
    (7 ≤ (firstSeenDates items).length → dfs.length = 5) := by
  cases hbm : buildDailyMap items with
  | error e =>
    rw [dailyForecastsOf, hbm] at hok
    simp [Except.map] at hok
  | ok m =>
    rw [dailyForecastsOf, hbm] at hok
    simp only [Except.map] at hok
    have hdfs : dfs = (m.take 5).map (fun kd => mkDailyForecast kd.1 kd.2) := by
      injection hok with h
      exact h.symm
    have hkeys : m.map Prod.fst = firstSeenDates items := by
      have := buildFrom_ok_keys items [] m hbm
      simpa [firstSeenDates] using this
    have htemps : ∀ k, lookupTemps m k = tempsOn items k := by
      intro k
      have := buildFrom_ok_temps items [] m hbm k
      simpa [lookupTemps, alGet] using this
    have hnd : (m.map Prod.fst).Nodup := by
      rw [hkeys]
      exact foldKeys_nodup items [] List.nodup_nil
    refine ⟨?_, ?_, ?_⟩
    · rw [hdfs]
      calc ((m.take 5).map (fun kd => mkDailyForecast kd.1 kd.2)).map DailyForecast.date
          = (m.take 5).map Prod.fst := by
            rw [List.map_map]; rfl
        _ = (m.map Prod.fst).take 5 := List.map_take _ _ _
        _ = (firstSeenDates items).take 5 := by rw [hkeys]
    · intro df hdf
      rw [hdfs] at hdf
      obtain ⟨kd, hkd, rfl⟩ := List.mem_map.mp hdf
      have hmem : kd ∈ m := List.take_subset 5 m hkd
      have hget : alGet m kd.1 = some kd.2 := alGet_eq_of_mem m kd.1 kd.2 hmem hnd
      have hT : kd.2.temps = tempsOn items kd.1 := by
        have := htemps kd.1
        rw [lookupTemps, hget] at this
        simpa using this
      constructor
      · show jround (listMax kd.2.temps) = _
        rw [hT]
        rfl
      · show jround (listMin kd.2.temps) = _
        rw [hT]
        rfl
    · intro h7
      rw [hdfs, List.length_map, List.length_take]
      have : m.length = (firstSeenDates items).length := by
        rw [← hkeys, List.length_map]
      omega

/-- Witness for C1: the spec's eight samples `[10,15,12,18,20,16,14,11]` on one
day followed by six further days: dates are the first five distinct days,
`maxTemp = 20`, `minTemp = 10` on day one, and exactly five entries result. -/
theorem c1_daily_aggregation_witness :
    sampleItems ≠ [] ∧ dailyForecastsOf sampleItems = Except.ok sampleDfs ∧
    (sampleDfs.map DailyForecast.date = (firstSeenDates sampleItems).take 5 ∧
     (∀ df ∈ sampleDfs, df.maxTemp = jround (listMax (tempsOn sampleItems df.date)) ∧
                        df.minTemp = jround (listMin (tempsOn sampleItems df.date))) ∧
     (7 ≤ (firstSeenDates sampleItems).length → sampleDfs.length = 5)) :=
  ⟨by decide, by rfl, c1_daily_aggregation sampleItems sampleDfs (by decide) (by rfl)⟩

end WD

namespace WD

/-- C2: with `N = 3`, `W = 1000 ms` (and the default 1000 ms base backoff), a
fresh limiter allows three consecutive `checkRequest "u"` calls, denies a
fourth immediate call with `retryAfter > 0`, allows a call again once time has
advanced by `W + 1`, and treats identifiers independently: with `"u"`
exhausted, `checkRequest "u2"` returns exactly what it returns on the fresh
limiter. -/
theorem c2_rate_limiter_scenario (t : ℕ) :
    let cfg : RLConfig := ⟨3, 1000, 1000⟩
    let r1 := checkRequest cfg emptyRL "u" t
    let r2 := checkRequest cfg r1.2 "u" t
    let r3 := checkRequest cfg r2.2 "u" t
    let r4 := checkRequest cfg r3.2 "u" t
    let r5 := checkRequest cfg r4.2 "u" (t + 1001)
    r1.1.allowed = true ∧ r2.1.allowed = true ∧ r3.1.allowed = true ∧
    r4.1.allowed = false ∧ 0 < (r4.1.retryAfter).getD 0 ∧
    r5.1.allowed = true ∧
    (checkRequest cfg r4.2 "u2" t).1 = (checkRequest cfg emptyRL "u2" t).1 := by
  simp [checkRequest, checkRequestWindow, alGet, alSet, alDel, emptyRL,
    Nat.sub_self, Nat.add_sub_cancel_left]

/-- Counterexample to C5 as stated: with `N = 1`, `W = 1000`, `base = 1000`,
the denial at `t = 0` reports `retryAfter = 1000`, and the consecutive denial
at `t = 500` (inside the backoff period) reports `retryAfter = 500`: across
consecutive denied attempts `retryAfter` strictly decreases. -/
theorem c5_retry_after_decreases :
    (checkRequest rlCfg1 rlS1 "u" 0).1.allowed = false ∧
    (checkRequest rlCfg1 rlS2 "u" 500).1.allowed = false ∧
    (checkRequest rlCfg1 rlS2 "u" 500).1.retryAfter.getD 0 <
      (checkRequest rlCfg1 rlS1 "u" 0).1.retryAfter.getD 0 := by
  decide

/-- C5 amended: across consecutive denied `checkRequest` attempts that occur
outside an active backoff period (each of which records a violation and
returns `baseBackoff * 2^min(violationCount-1, 10)`), the `retryAfter` values
are non-decreasing; attempts denied inside a backoff period instead return the
remaining wait, which shrinks as time advances (see the counterexample). -/
theorem c5_backoff_monotone (cfg : RLConfig) (s : RLState) (id : String) (t1 t2 : ℕ)
    (h1b : inBackoff cfg s id t1 = false) (h1f : windowFull cfg s id t1 = true)
    (h2b : inBackoff cfg (checkRequest cfg s id t1).2 id t2 = false)
    (h2f : windowFull cfg (checkRequest cfg s id t1).2 id t2 = true) :
    (checkRequest cfg s id t1).1.allowed = false ∧
    (checkRequest cfg (checkRequest cfg s id t1).2 id t2).1.allowed = false ∧
    (checkRequest cfg s id t1).1.retryAfter.getD 0 ≤
      (checkRequest cfg (checkRequest cfg s id t1).2 id t2).1.retryAfter.getD 0 := by
  have hf1 : cfg.maxRequests ≤
      (((alGet s.requests id).getD []).filter (fun time => t1 - time < cfg.windowMs)).length := by
    simpa [windowFull, validReqs] using h1f
  set c := ((alGet s.violations id).getD ⟨0, 0⟩).count with hc
  have e1 : checkRequest cfg s id t1 =
      (⟨false, some (cfg.baseBackoffMs * 2 ^ (min c 10)), 0⟩,
       { s with violations := alSet s.violations id ⟨c + 1, t1⟩ }) := by
    rw [checkRequest_of_not_backoff cfg s id t1 h1b, checkRequestWindow_full cfg s id t1 _ hf1]
  rw [e1] at h2b h2f ⊢
  set s1 : RLState := { s with violations := alSet s.violations id ⟨c + 1, t1⟩ } with hs1
  have hv1 : alGet s1.violations id = some ⟨c + 1, t1⟩ := by
    simp [hs1, alGet_alSet_self]
  have hf2 : cfg.maxRequests ≤
      (((alGet s1.requests id).getD []).filter (fun time => t2 - time < cfg.windowMs)).length := by
    simpa [windowFull, validReqs] using h2f
  have e2 : checkRequest cfg s1 id t2 =
      (⟨false, some (cfg.baseBackoffMs * 2 ^ (min (c + 1) 10)), 0⟩,
       { s1 with violations := alSet s1.violations id ⟨c + 1 + 1, t2⟩ }) := by
    rw [checkRequest_of_not_backoff cfg s1 id t2 h2b, checkRequestWindow_full cfg s1 id t2 _ hf2, hv1]
    simp
  rw [e2]
  refine ⟨rfl, rfl, ?_⟩
  simp only [Option.getD_some]
  exact Nat.mul_le_mul_left _ (Nat.pow_le_pow_right (by norm_num) (by omega))

/-- Witness for the amended C5: a one-request limiter with a wide window,
denied at `t = 1` (`retryAfter = 1000`) and again at `t = 1001`
(`retryAfter = 2000`). -/
theorem c5_backoff_monotone_witness :
    inBackoff rlCfgW rlSW "u" 1 = false ∧ windowFull rlCfgW rlSW "u" 1 = true ∧
    inBackoff rlCfgW (checkRequest rlCfgW rlSW "u" 1).2 "u" 1001 = false ∧
    windowFull rlCfgW (checkRequest rlCfgW rlSW "u" 1).2 "u" 1001 = true ∧
    ((checkRequest rlCfgW rlSW "u" 1).1.allowed = false ∧
     (checkRequest rlCfgW (checkRequest rlCfgW rlSW "u" 1).2 "u" 1001).1.allowed = false ∧
     (checkRequest rlCfgW rlSW "u" 1).1.retryAfter.getD 0 ≤
       (checkRequest rlCfgW (checkRequest rlCfgW rlSW "u" 1).2 "u" 1001).1.retryAfter.getD 0) :=
  ⟨by decide, by decide, by decide, by decide,
   c5_backoff_monotone rlCfgW rlSW "u" 1 1001 (by decide) (by decide) (by decide) (by decide)⟩

end WD

namespace WD

theorem filter_self_of_all {p : ℕ → Bool} (l : List ℕ) :
    (l.filter p).filter p = l.filter p :=
  List.filter_eq_self.mpr (fun a ha => (List.mem_filter.mp ha).2)

/-- Counterexample to C9 as stated: during an active backoff period
`getRemainingRequests` returns early with 0 and leaves the limiter's state
completely unchanged — not every call mutates the state. -/
theorem c9_no_mutation_in_backoff :
    inBackoff rlCfg1 rlS2 "u" 500 = true ∧
    (getRemainingRequests rlCfg1 rlS2 "u" 500).1 = 0 ∧
    (getRemainingRequests rlCfg1 rlS2 "u" 500).2 = rlS2 := by
  decide

/-- C9 amended: `getRemainingRequests` delegates to the mutating
`checkRequest`; outside a backoff period every call mutates the state for the
identifier — with quota remaining it appends the current timestamp (so a
second consecutive call with quota returns a strictly smaller value), and with
the window full it records a new violation; during an active backoff it
returns 0 with the state unchanged. -/
theorem c9_get_remaining_mutates (cfg : RLConfig) (s : RLState) (id : String) (now : ℕ)
    (hw : 0 < cfg.windowMs) (hv : (s.violations.map Prod.fst).Nodup) :
    getRemainingRequests cfg s id now =
      ((checkRequest cfg s id now).1.remaining, (checkRequest cfg s id now).2) ∧
    (inBackoff cfg s id now = true → getRemainingRequests cfg s id now = (0, s)) ∧
    (inBackoff cfg s id now = false → windowFull cfg s id now = false →
      alGet (getRemainingRequests cfg s id now).2.requests id =
        some (validReqs cfg s id now ++ [now]) ∧
      (windowFull cfg (getRemainingRequests cfg s id now).2 id now = false →
        (getRemainingRequests cfg (getRemainingRequests cfg s id now).2 id now).1 <
          (getRemainingRequests cfg s id now).1)) ∧
    (inBackoff cfg s id now = false → windowFull cfg s id now = true →
      alGet (getRemainingRequests cfg s id now).2.violations id =
        some ⟨((alGet s.violations id).getD ⟨0, 0⟩).count + 1, now⟩) := by
  refine ⟨rfl, ?_, ?_, ?_⟩
  · intro hb
    obtain ⟨h1, h2, h3⟩ := checkRequest_of_backoff cfg s id now hb
    show ((checkRequest cfg s id now).1.remaining, (checkRequest cfg s id now).2) = (0, s)
    rw [h2, h3]
  · intro hb hfull
    have hf : ¬ cfg.maxRequests ≤
        (((alGet s.requests id).getD []).filter (fun time => now - time < cfg.windowMs)).length := by
      simpa [windowFull, validReqs] using hfull
    have e1 : checkRequest cfg s id now =
        (⟨true, none,
          cfg.maxRequests - (validReqs cfg s id now).length - 1⟩,
         { requests := alSet s.requests id (validReqs cfg s id now ++ [now]),
           violations := alDel s.violations id }) := by
      rw [checkRequest_of_not_backoff cfg s id now hb,
        checkRequestWindow_open cfg s id now _ hf]
      rfl
    constructor
    · show alGet (checkRequest cfg s id now).2.requests id = _
      rw [e1]
      exact alGet_alSet_self _ _ _
    · intro h2f
      set s1 : RLState :=
        { requests := alSet s.requests id (validReqs cfg s id now ++ [now]),
          violations := alDel s.violations id } with hs1
      have hreq1 : (alGet s1.requests id).getD [] = validReqs cfg s id now ++ [now] := by
        rw [hs1]
        simp [alGet_alSet_self]
      have hfilter : (validReqs cfg s id now ++ [now]).filter
          (fun time => now - time < cfg.windowMs) = validReqs cfg s id now ++ [now] := by
        rw [List.filter_append]
        rw [validReqs, filter_self_of_all]
        congr 1
        simp [Nat.sub_self, hw]
      have hval1 : validReqs cfg s1 id now = validReqs cfg s id now ++ [now] := by
        rw [validReqs, hreq1, hfilter]
      have hb1 : inBackoff cfg s1 id now = false := by
        rw [inBackoff, hs1]
        simp only
        rw [alGet_alDel_self s.violations id hv]
      have hf1 : ¬ cfg.maxRequests ≤
          (((alGet s1.requests id).getD []).filter (fun time => now - time < cfg.windowMs)).length := by
        have h2fc : windowFull cfg (checkRequest cfg s id now).2 id now = false := h2f
        rw [e1] at h2fc
        simpa [windowFull, validReqs] using h2fc
      have e2 : checkRequest cfg s1 id now =
          (⟨true, none,
            cfg.maxRequests - (validReqs cfg s1 id now).length - 1⟩,
           { requests := alSet s1.requests id (validReqs cfg s1 id now ++ [now]),
             violations := alDel s1.violations id }) := by
        rw [checkRequest_of_not_backoff cfg s1 id now hb1,
          checkRequestWindow_open cfg s1 id now _ hf1]
        rfl
      show (getRemainingRequests cfg (checkRequest cfg s id now).2 id now).1 <
        (checkRequest cfg s id now).1.remaining
      rw [e1]
      show (checkRequest cfg s1 id now).1.remaining < _
      rw [e2]
      have hlen : (validReqs cfg s1 id now).length = (validReqs cfg s id now).length + 1 := by
        rw [hval1]
        simp
      have hlt : (validReqs cfg s1 id now).length < cfg.maxRequests := by
        have := hf1
        rw [← validReqs] at this
        omega
      simp only
      omega
  · intro hb hfull
    have hf : cfg.maxRequests ≤
        (((alGet s.requests id).getD []).filter (fun time => now - time < cfg.windowMs)).length := by
      simpa [windowFull, validReqs] using hfull
    show alGet (checkRequest cfg s id now).2.violations id = _
    rw [checkRequest_of_not_backoff cfg s id now hb,
      checkRequestWindow_full cfg s id now _ hf]
    exact alGet_alSet_self _ _ _

/-- Witness for the amended C9, at the fresh limiter with `N = 1`. -/
theorem c9_get_remaining_mutates_witness :
    0 < rlCfg1.windowMs ∧ (emptyRL.violations.map Prod.fst).Nodup ∧
    (getRemainingRequests rlCfg1 emptyRL "u" 0 =
      ((checkRequest rlCfg1 emptyRL "u" 0).1.remaining, (checkRequest rlCfg1 emptyRL "u" 0).2) ∧
     (inBackoff rlCfg1 emptyRL "u" 0 = true →
       getRemainingRequests rlCfg1 emptyRL "u" 0 = (0, emptyRL)) ∧
     (inBackoff rlCfg1 emptyRL "u" 0 = false → windowFull rlCfg1 emptyRL "u" 0 = false →
       alGet (getRemainingRequests rlCfg1 emptyRL "u" 0).2.requests "u" =
         some (validReqs rlCfg1 emptyRL "u" 0 ++ [0]) ∧
       (windowFull rlCfg1 (getRemainingRequests rlCfg1 emptyRL "u" 0).2 "u" 0 = false →
         (getRemainingRequests rlCfg1 (getRemainingRequests rlCfg1 emptyRL "u" 0).2 "u" 0).1 <
           (getRemainingRequests rlCfg1 emptyRL "u" 0).1)) ∧
     (inBackoff rlCfg1 emptyRL "u" 0 = false → windowFull rlCfg1 emptyRL "u" 0 = true →
       alGet (getRemainingRequests rlCfg1 emptyRL "u" 0).2.violations "u" =
         some ⟨((alGet emptyRL.violations "u").getD ⟨0, 0⟩).count + 1, 0⟩)) :=
  ⟨by decide, by decide, c9_get_remaining_mutates rlCfg1 emptyRL "u" 0 (by decide) (by decide)⟩

end WD

namespace WD

/-- Counterexample to C3 as stated: an empty forecast payload does not make
normalization fail — `getWeatherData` succeeds with an empty `forecast` list
and stores that snapshot in the cache. -/
theorem c3_empty_payload_cached :
    dailyForecastsOf ([] : List ForecastItem) = Except.ok [] ∧
    (getWeatherData rlCfg1 0 0 true curOk [] 0 g0).1 = Except.ok wEmpty ∧
    (getWeatherData rlCfg1 0 0 true curOk [] 0 g0).2.1.cache =
      [(weatherKey 0 0, ⟨wEmpty, 0⟩)] := by
  refine ⟨rfl, rfl, rfl⟩

/-- C3 amended: a forecast payload containing a sample missing `weather[0]`
makes normalization fail with the malformed-response error, and the cache is
unchanged whenever `getWeatherData` fails; an empty payload, however,
normalizes to a snapshot with an empty forecast list and is cached. -/
theorem c3_malformed_not_cached (cfg : RLConfig) (lat lon : ℚ)
    (cur cur2 : CurrentPayload) (fc fc2 : List ForecastItem) (fOk2 : Bool)
    (now : ℕ) (g : Gateway) (it : ForecastItem) (e : WError)
    (hit : it ∈ fc) (hwt : it.weather = [])
    (he : (getWeatherData cfg lat lon fOk2 cur2 fc2 now g).1 = Except.error e) :
    normalize cur fc now = Except.error WError.malformed ∧
    (getWeatherData cfg lat lon fOk2 cur2 fc2 now g).2.1.cache = g.cache := by
  constructor
  · have hb : buildDailyMap fc = Except.error () := buildFrom_error_of_mem fc [] it hit hwt
    unfold normalize dailyForecastsOf
    rw [hb]
    rfl
  · by_cases h1 : (validateCoordinates (JSNum.num lat) (JSNum.num lon)).isValid = false
    · rw [getWeatherData_invalid cfg lat lon fOk2 cur2 fc2 now g h1]
    · by_cases h2 : (isAllowed cfg g.limiter "weather" now).1 = false
      · rw [getWeatherData_rateLimited cfg lat lon fOk2 cur2 fc2 now g h1 h2]
      · cases h3 : (cacheGet g.cache (weatherKey lat lon) now).1 with
        | some w =>
          rw [getWeatherData_cacheHit cfg lat lon fOk2 cur2 fc2 now g w h1 h2 h3] at he
          exact Except.noConfusion he
        | none =>
          cases fOk2 with
          | false => rw [getWeatherData_fetchFail cfg lat lon cur2 fc2 now g h1 h2 h3]
          | true =>
            cases h5 : normalize cur2 fc2 now with
            | error e2 =>
              rw [getWeatherData_normError cfg lat lon cur2 fc2 now g e2 h1 h2 h3 h5]
            | ok w =>
              rw [getWeatherData_normOk cfg lat lon cur2 fc2 now g w h1 h2 h3 h5] at he
              exact Except.noConfusion he

/-- Witness for the amended C3: the one-sample payload missing `weather[0]`
fails and leaves the fresh gateway's cache empty. -/
theorem c3_malformed_not_cached_witness :
    (fcBad.head? = some ⟨"2024-01-01 00:00:00", 1, 1, 1, 0, []⟩) ∧
    (getWeatherData rlCfg1 0 0 true curOk fcBad 0 g0).1 = Except.error WError.malformed ∧
    (normalize curOk fcBad 0 = Except.error WError.malformed ∧
     (getWeatherData rlCfg1 0 0 true curOk fcBad 0 g0).2.1.cache = g0.cache) :=
  ⟨rfl, rfl,
   c3_malformed_not_cached rlCfg1 0 0 curOk curOk fcBad fcBad true 0 g0
     ⟨"2024-01-01 00:00:00", 1, 1, 1, 0, []⟩ WError.malformed
     (by decide) rfl rfl⟩

/-- Counterexample to C4 as stated: at `now = CACHE_DURATION` the entry
created at `t = 0` is stale and `get` reports it absent, but the lookup does
not evict it — the entry is still in the store afterwards. -/
theorem c4_no_eviction :
    (cacheGet cStale "k" CACHE_DURATION).1 = none ∧
    (cacheGet cStale "k" CACHE_DURATION).2 = cStale ∧
    alGet (cacheGet cStale "k" CACHE_DURATION).2 "k" = some ⟨42, 0⟩ := by
  decide

/-- C4 amended: `get` returns the stored value exactly when the entry is
still within its validity window (`now < timestamp + CACHE_DURATION`); a
stale entry is treated as absent, but the lookup has no side effect on the
store — the stale entry is not evicted. -/
theorem c4_get_fresh_only_no_evict {α : Type} (c : Cache α) (key : String) (now : ℕ) :
    (∀ v, (cacheGet c key now).1 = some v ↔
       ∃ e, alGet c key = some e ∧ now < e.timestamp + CACHE_DURATION ∧ v = e.data) ∧
    (cacheGet c key now).2 = c := by
  have hC : (0 : ℕ) < CACHE_DURATION := by decide
  constructor
  · intro v
    unfold cacheGet
    cases h : alGet c key with
    | none =>
      dsimp only
      constructor
      · intro hv; exact Option.noConfusion hv
      · rintro ⟨e2, he2, hlt, hv⟩; exact Option.noConfusion he2
    | some e =>
      dsimp only
      by_cases hfresh : now - e.timestamp < CACHE_DURATION
      · simp only [if_pos hfresh]
        constructor
        · intro hv
          injection hv with hv2
          exact ⟨e, rfl, by omega, hv2.symm⟩
        · rintro ⟨e2, he2, hlt, hv⟩
          injection he2 with he2e
          subst he2e
          rw [hv]
      · simp only [if_neg hfresh]
        constructor
        · intro hv; exact Option.noConfusion hv
        · rintro ⟨e2, he2, hlt, hv⟩
          injection he2 with he2e
          subst he2e
          exfalso
          omega
  · unfold cacheGet
    cases h : alGet c key with
    | none => rfl
    | some e => rfl

end WD

namespace WD

/-- Counterexample to C6 as stated: the search cache key is built from the
raw query with no lowercasing, so two queries differing only in letter case
produce different keys. -/
theorem c6_search_key_not_lowercased : searchKey "London" ≠ searchKey "london" := by
  decide

/-- C6 amended: the coordinate cache key is `"weather_" + lat + "_" + lon`
and is deterministic and collision-free (for underscore-free coordinate
strings, which JavaScript number formatting always produces); the place-search
key is `"search_"` plus the raw query — it is not lowercased, so queries
differing in letter case produce different keys. -/
theorem c6_cache_key_deterministic (a b a2 b2 q : String)
    (ha : '_' ∉ a.data) (ha2 : '_' ∉ a2.data) :
    (generateCacheKey "weather" [a, b] = generateCacheKey "weather" [a2, b2] ↔
      (a = a2 ∧ b = b2)) ∧
    searchKey q = "search_" ++ q := by
  constructor
  · constructor
    · intro h
      have hd := congrArg String.data h
      rw [gck_data, gck_data] at hd
      have hd2 := List.append_cancel_left hd
      injection hd2 with _ hd3
      obtain ⟨hA, hB⟩ :=
        underscore_split_inj a.data a2.data b.data b2.data ha ha2 hd3
      exact ⟨String.ext hA, String.ext hB⟩
    · rintro ⟨rfl, rfl⟩
      rfl
  · apply String.ext
    simp [searchKey, generateCacheKey, String.intercalate, String.intercalate.go,
      String.data_append]

/-- Witness for the amended C6 at two concrete coordinate pairs and the query
`"London"`. -/
theorem c6_cache_key_deterministic_witness :
    ('_' ∉ ("51.5074").data) ∧ ('_' ∉ ("48.85").data) ∧
    ((generateCacheKey "weather" ["51.5074", "-0.1278"] =
        generateCacheKey "weather" ["48.85", "2.35"] ↔
      ("51.5074" = "48.85" ∧ "-0.1278" = "2.35")) ∧
     searchKey "London" = "search_" ++ "London") :=
  ⟨by decide, by decide,
   c6_cache_key_deterministic "51.5074" "-0.1278" "48.85" "2.35" "London"
     (by decide) (by decide)⟩

/-- C7: `refreshWeatherData` deletes the coordinate's cache entry and then
always fetches fresh data — for every prior gateway state (in particular one
holding an unexpired entry for that key) the refreshed call consults the
network and returns the freshly normalized snapshot. -/
theorem c7_refresh_bypasses_cache (cfg : RLConfig) (lat lon : ℚ) (cur : CurrentPayload)
    (fc : List ForecastItem) (now : ℕ) (g : Gateway) (w : WeatherData)
    (hnd : (g.cache.map Prod.fst).Nodup)
    (hval : ¬ (validateCoordinates (JSNum.num lat) (JSNum.num lon)).isValid = false)
    (hallow : ¬ (isAllowed cfg g.limiter "weather" now).1 = false)
    (hn : normalize cur fc now = Except.ok w) :
    (refreshWeatherData cfg lat lon true cur fc now g).2.2 = true ∧
    (refreshWeatherData cfg lat lon true cur fc now g).1 = Except.ok w := by
  unfold refreshWeatherData
  set g2 : Gateway := { g with cache := cacheDelete g.cache (weatherKey lat lon) } with hg
  have h3 : (cacheGet g2.cache (weatherKey lat lon) now).1 = none := by
    rw [hg]
    show (cacheGet (cacheDelete g.cache (weatherKey lat lon)) (weatherKey lat lon) now).1 = none
    unfold cacheGet cacheDelete
    rw [alGet_alDel_self g.cache (weatherKey lat lon) hnd]
  have hallow2 : ¬ (isAllowed cfg g2.limiter "weather" now).1 = false := hallow
  rw [getWeatherData_normOk cfg lat lon cur fc now g2 w hval hallow2 h3 hn]
  exact ⟨rfl, rfl⟩

/-- Witness for C7: a gateway whose cache holds an unexpired snapshot `wOld`
for the key still fetches and returns the fresh snapshot `wNew ≠ wOld`. -/
theorem c7_refresh_bypasses_cache_witness :
    (gFresh.cache.map Prod.fst).Nodup ∧
    ¬ (validateCoordinates (JSNum.num 0) (JSNum.num 0)).isValid = false ∧
    ¬ (isAllowed rlCfg1 gFresh.limiter "weather" 0).1 = false ∧
    normalize curOk sampleItems 0 = Except.ok wNew ∧
    (cacheGet gFresh.cache (weatherKey 0 0) 0).1 = some wOld ∧
    wNew ≠ wOld ∧
    ((refreshWeatherData rlCfg1 0 0 true curOk sampleItems 0 gFresh).2.2 = true ∧
     (refreshWeatherData rlCfg1 0 0 true curOk sampleItems 0 gFresh).1 = Except.ok wNew) :=
  ⟨by decide, by decide, by decide, by rfl, by rfl, by decide,
   c7_refresh_bypasses_cache rlCfg1 0 0 curOk sampleItems 0 gFresh wNew
     (by decide) (by decide) (by decide) (by rfl)⟩

/-- C8: coordinate validation returns `isValid = true` exactly on
`lat ∈ [-90, 90]` and `lon ∈ [-180, 180]`; out-of-range values give
`isValid = false` with the range-specific message naming the offending
coordinate, and NaN input gives `isValid = false`. -/
theorem c8_coordinate_validation (lat lon : ℚ) :
    ((-90 ≤ lat ∧ lat ≤ 90 ∧ -180 ≤ lon ∧ lon ≤ 180) →
      validateCoordinates (JSNum.num lat) (JSNum.num lon) = ⟨true, none⟩) ∧
    ((lat < -90 ∨ 90 < lat) →
      validateCoordinates (JSNum.num lat) (JSNum.num lon) =
        ⟨false, some "Latitude must be between -90 and 90 degrees"⟩) ∧
    ((-90 ≤ lat ∧ lat ≤ 90) → (lon < -180 ∨ 180 < lon) →
      validateCoordinates (JSNum.num lat) (JSNum.num lon) =
        ⟨false, some "Longitude must be between -180 and 180 degrees"⟩) ∧
    (validateCoordinates JSNum.nan (JSNum.num lon)).isValid = false ∧
    (validateCoordinates (JSNum.num lat) JSNum.nan).isValid = false ∧
    (validateCoordinates JSNum.nan JSNum.nan).isValid = false := by
  refine ⟨?_, ?_, ?_, rfl, rfl, rfl⟩
  · rintro ⟨h1, h2, h3, h4⟩
    show (if lat < -90 ∨ 90 < lat then _ else _) = _
    rw [if_neg (by push_neg; exact ⟨h1, h2⟩), if_neg (by push_neg; exact ⟨h3, h4⟩)]
  · intro h
    show (if lat < -90 ∨ 90 < lat then _ else _) = _
    rw [if_pos h]
  · rintro ⟨h1, h2⟩ h3
    show (if lat < -90 ∨ 90 < lat then _ else _) = _
    rw [if_neg (by push_neg; exact ⟨h1, h2⟩), if_pos h3]

/-- Witness for C8 at in-range, out-of-range and NaN inputs. -/
theorem c8_coordinate_validation_witness :
    ((-90 ≤ (52 : ℚ) ∧ (52 : ℚ) ≤ 90 ∧ -180 ≤ (13 : ℚ) ∧ (13 : ℚ) ≤ 180) ∧
     validateCoordinates (JSNum.num 52) (JSNum.num 13) = ⟨true, none⟩) ∧
    ((90 : ℚ) < 91 ∧
     validateCoordinates (JSNum.num 91) (JSNum.num 0) =
       ⟨false, some "Latitude must be between -90 and 90 degrees"⟩) ∧
    ((180 : ℚ) < 181 ∧
     validateCoordinates (JSNum.num 0) (JSNum.num 181) =
       ⟨false, some "Longitude must be between -180 and 180 degrees"⟩) ∧
    (validateCoordinates JSNum.nan (JSNum.num 0)).isValid = false :=
  ⟨⟨by decide, (c8_coordinate_validation 52 13).1 (by decide)⟩,
   ⟨by decide, (c8_coordinate_validation 91 0).2.1 (Or.inr (by decide))⟩,
   ⟨by decide, (c8_coordinate_validation 0 181).2.2.1 (by decide) (Or.inr (by decide))⟩,
   (c8_coordinate_validation 0 0).2.2.2.1⟩

/-- C10: a provider visibility of exactly 0 m is treated like an omitted
field — both coalesce to the 10000 m default and normalize to 10 km, and the
snapshots built from the two payloads are identical, so a caller cannot
distinguish zero from missing visibility. -/
theorem c10_zero_visibility_as_missing :
    normVisibility (some 0) = 10 ∧ normVisibility none = 10 ∧
    normalize { curOk with visibility := some 0 } [] 0 =
      normalize { curOk with visibility := none } [] 0 ∧
    (normalize { curOk with visibility := some 0 } [] 0).map
        (fun w => w.current.visibility) = Except.ok 10 := by
  have h1 : normVisibility (some 0) = 10 := by
    norm_num [normVisibility, jsOrDefault, convertVisibility, jround]
  have h2 : normVisibility none = 10 := by
    norm_num [normVisibility, jsOrDefault, convertVisibility, jround]
  refine ⟨h1, h2, rfl, ?_⟩
  rw [show (10 : ℤ) = normVisibility (some 0) from h1.symm]
  exact rfl

end WD
